import Mathlib

/-!  Shallow embedding of `src/inventory/barcode_utils.py`: the label/barcode
rendering pipeline for the Brother QL-810W printer.  Python floats are
modelled as rationals, Python ints as integers, PIL images as a size plus a
total pixel map, and fallible functions return `Except String` (the string is
the `ValueError` message).  External collaborators — the python-barcode
Code128 writer, PIL's font rasterizer and the network printer backend — are
abstracted as explicit function parameters.  -/

namespace BarcodeUtils

/-- Python `int(x)` applied to a float: truncation toward zero. -/
def pyInt (q : ℚ) : ℤ := if 0 ≤ q then ⌊q⌋ else ⌈q⌉

/-- Python `str.lower()` for the ASCII strings used as modes. -/
def pyLower (s : String) : String := String.mk (s.data.map Char.toLower)

/-- A raster image: dimensions plus a total pixel map.  Pixel value 0 is
black ("set"), 1 is white ("unset"); larger grayscale values may occur only
in images coming straight from the external barcode writer, before the
`convert("1")` step. -/
structure Img where
  width : ℕ
  height : ℕ
  px : ℕ → ℕ → ℕ

/-- `Image.new("1", (w, h), 1)`: an all-white 1-bit canvas. -/
def Img.new1 (w h : ℕ) : Img := ⟨w, h, fun _ _ => 1⟩

/-- Strictly bilevel: every pixel is fully black (0) or fully white (1). -/
def Img.bilevel (img : Img) : Prop := ∀ x y, img.px x y = 0 ∨ img.px x y = 1

/-- `img.convert("1")` of PIL: the result is 1-bit.  (PIL dithers when
converting grayscale; we model the bilevel conversion as a threshold, which
is all the pipeline depends on: dimensions are preserved and the output has
no intermediate gray values.) -/
def convert1 (g : Img) : Img :=
  ⟨g.width, g.height, fun x y => if 128 ≤ g.px x y then 1 else 0⟩

/-- `img.resize((nw, nh), resample=Image.NEAREST)`: nearest-neighbour
sampling of the source pixels; no interpolation, so no new pixel values are
invented. -/
def resizeNearest (img : Img) (nw nh : ℕ) : Img :=
  ⟨nw, nh, fun x y => img.px (x * img.width / nw) (y * img.height / nh)⟩

/-- `base.paste(top, (ox, oy))`: overlay `top` with its upper-left corner at
`(ox, oy)`; parts falling outside the base canvas are clipped and the base
keeps its size. -/
def Img.paste (base top : Img) (ox oy : ℤ) : Img :=
  ⟨base.width, base.height, fun x y =>
    if ox ≤ (x : ℤ) ∧ (x : ℤ) < ox + top.width ∧ oy ≤ (y : ℤ) ∧ (y : ℤ) < oy + top.height
    then top.px ((x : ℤ) - ox).toNat ((y : ℤ) - oy).toNat
    else base.px x y⟩

/-- The external Code128 writer (`barcode.Code128` + `ImageWriter`): from
`(data, module_width_mm, module_height_mm, dpi, quiet_zone_mm)` to the raw
(possibly grayscale) image it writes.  Abstract: the repository treats it as
an opaque collaborator. -/
def RenderFn : Type := String → ℚ → ℚ → ℤ → ℚ → Img

/-- The external font rasterizer behind `ImageDraw.text(..., anchor="ma")`:
given the text and the anchor position, which pixels get inked.  Abstract. -/
def GlyphFn : Type := String → ℕ → ℕ → ℕ → ℕ → Bool

/-- Brother's expected pixel sizes for specific label codes
(`BROTHER_LABEL_PIXEL_SIZES`), as (width_px, height_px). -/
def BROTHER_LABEL_PIXEL_SIZES : List (String × ℤ × ℤ) := [("17x54", (566, 165))]

/-- `LabelProfile`: logical description of a label type.  The field written
`barcode_area_frac` here is `barcode_area_ratio` in the source. -/
structure LabelProfile where
  code : String
  width_mm : ℚ
  height_mm : ℚ
  dpi : ℤ
  barcode_area_frac : ℚ
  side_margin_mm : ℚ

/-- `LabelProfile.canvas_size_px`: the known-label pixel table takes
precedence; otherwise fall back to `int(mm / 25.4 * dpi)` per axis. -/
def LabelProfile.canvas_size_px (p : LabelProfile) : ℤ × ℤ :=
  match BROTHER_LABEL_PIXEL_SIZES.lookup p.code with
  | some s => s
  | none => (pyInt (p.width_mm / 25.4 * p.dpi), pyInt (p.height_mm / 25.4 * p.dpi))

/-- `LabelProfile.side_margin_px = int(side_margin_mm / 25.4 * dpi)`. -/
def LabelProfile.side_margin_px (p : LabelProfile) : ℤ :=
  pyInt (p.side_margin_mm / 25.4 * p.dpi)

/-- `DEFAULT_PROFILE`: the 17x54 label at 300 dpi. -/
def DEFAULT_PROFILE : LabelProfile := ⟨"17x54", 54, 17, 300, 0.7, 2⟩

/-- The non-failing core of `_render_code128`: convert the requested bar
height from pixels to mm (`module_height_px / dpi * 25.4`), invoke the
external writer, and convert its output to a 1-bit image. -/
def renderBW (render : RenderFn) (data : String) (module_width_mm : ℚ)
    (module_height_px : ℤ) (dpi : ℤ) (quiet_zone_mm : ℚ) : Img :=
  convert1 (render data module_width_mm ((module_height_px : ℚ) / (dpi : ℚ) * 25.4)
    dpi quiet_zone_mm)

/-- `_render_code128(data, module_width_mm, module_height_px, dpi,
quiet_zone_mm=2.0)`: raises `ValueError` on an empty data string, otherwise
renders a 1-bit Code128 image. -/
def _render_code128 (render : RenderFn) (data : String) (module_width_mm : ℚ)
    (module_height_px : ℤ) (dpi : ℤ) (quiet_zone_mm : ℚ) : Except String Img :=
  if data = "" then .error "Cannot generate barcode from empty data string."
  else .ok (renderBW render data module_width_mm module_height_px dpi quiet_zone_mm)

/-- The `while` loop of `generate_barcode_to_fit`: while the image is wider
than `max_width_px` and the module width exceeds `min_module_width_mm`,
multiply the module width by 0.9 and re-render.  (Inside the loop the data
string is known non-empty, so the loop calls the non-failing render core.)
The loop is modelled with explicit fuel — `fitFuel` below is proven
sufficient whenever the minimum module width is positive — and also returns
the number of iterations it performed. -/
def fit_loop (render : RenderFn) (data : String) (max_width_px target_height_px : ℤ)
    (dpi : ℤ) (min_module_width_mm : ℚ) : ℕ → ℚ → Img → Img × ℕ
  | 0, _, img => (img, 0)
  | fuel + 1, module_width, img =>
    if (img.width : ℤ) > max_width_px ∧ module_width > min_module_width_mm then
      let module_width' := module_width * (9 / 10)
      let img' := renderBW render data module_width' target_height_px dpi 2
      let r := fit_loop render data max_width_px target_height_px dpi
        min_module_width_mm fuel module_width' img'
      (r.1, r.2 + 1)
    else (img, 0)

/-- Enough fuel for `fit_loop`: once the module width has been multiplied by
0.9 this many times it is at or below the minimum (for positive minimum). -/
def fitFuel (initial min_module : ℚ) : ℕ := 9 * ⌈initial / min_module⌉₊ + 1

/-- The height step of `generate_barcode_to_fit`: if the image is taller
than `target_height_px`, downscale once to
`(int(width * (target / height)), target)` with nearest-neighbour
resampling. -/
def downscale (target_height_px : ℤ) (img : Img) : Img :=
  if (img.height : ℤ) > target_height_px then
    resizeNearest img
      (pyInt ((img.width : ℚ) * ((target_height_px : ℚ) / (img.height : ℚ)))).toNat
      target_height_px.toNat
  else img

/-- `generate_barcode_to_fit(data, max_width_px, target_height_px, dpi,
initial_module_width_mm=0.3, min_module_width_mm=0.1)`: raise `ValueError`
on non-positive bounds; render at the initial module width; shrink while too
wide; downscale once if still too tall. -/
def generate_barcode_to_fit (render : RenderFn) (data : String)
    (max_width_px target_height_px : ℤ) (dpi : ℤ)
    (initial_module_width_mm min_module_width_mm : ℚ) : Except String Img :=
  if max_width_px ≤ 0 ∨ target_height_px ≤ 0 then
    .error "max_width_px and target_height_px must be > 0."
  else
    match _render_code128 render data initial_module_width_mm target_height_px dpi 2 with
    | .error e => .error e
    | .ok img0 =>
      .ok (downscale target_height_px
        ((fit_loop render data max_width_px target_height_px dpi min_module_width_mm
          (fitFuel initial_module_width_mm min_module_width_mm)
          initial_module_width_mm img0).1))

/-- `ImageDraw.text((ax, ay), t, anchor="ma", fill=0)`: ink the glyph pixels
of `t` black (0); which pixels the font rasterizer inks is abstract. -/
def drawText (glyph : GlyphFn) (img : Img) (t : String) (ax ay : ℕ) : Img :=
  ⟨img.width, img.height, fun x y => if glyph t ax ay x y then 0 else img.px x y⟩

/-- `create_label_image(data, text=None, profile=None)`: build the full
label — a white 1-bit canvas of the profile's pixel size, the fitted
barcode pasted centered at the top, and the caption (defaulting to `data`)
drawn below it when it is non-empty and its anchor row is inside the
canvas.  `Image.new` raises on a negative size (only reachable for
pathological profiles). -/
def create_label_image (render : RenderFn) (glyph : GlyphFn) (data : String)
    (text : Option String) (profile : Option LabelProfile) : Except String Img :=
  let p := profile.getD DEFAULT_PROFILE
  let cs := p.canvas_size_px
  if cs.1 < 0 ∨ cs.2 < 0 then .error "width and height must be >= 0"
  else
    let canvas_width := cs.1.toNat
    let canvas_height := cs.2.toNat
    let label_img := Img.new1 canvas_width canvas_height
    let barcode_height_px := pyInt ((cs.2 : ℚ) * p.barcode_area_frac)
    let max_barcode_width_px := cs.1 - 2 * p.side_margin_px
    match generate_barcode_to_fit render data max_barcode_width_px barcode_height_px
      p.dpi (3 / 10) (1 / 10) with
    | .error e => .error e
    | .ok barcode_img =>
      let barcode_x := Int.fdiv ((canvas_width : ℤ) - (barcode_img.width : ℤ)) 2
      let pasted := label_img.paste barcode_img barcode_x 0
      let t := text.getD data
      if t ≠ "" ∧ barcode_img.height + 2 < canvas_height then
        .ok (drawText glyph pasted t (canvas_width / 2) (barcode_img.height + 2))
      else .ok pasted

/-- The caption decision of `create_label_image` (source lines 275–281),
extracted as a Boolean: true exactly when the run reaches the `draw.text`
call — the effective text is non-empty and the anchor row
`barcode_height + 2` is strictly below the canvas height. -/
def caption_drawn (render : RenderFn) (data : String) (text : Option String)
    (profile : Option LabelProfile) : Bool :=
  let p := profile.getD DEFAULT_PROFILE
  let cs := p.canvas_size_px
  if cs.1 < 0 ∨ cs.2 < 0 then false
  else
    match generate_barcode_to_fit render data (cs.1 - 2 * p.side_margin_px)
      (pyInt ((cs.2 : ℚ) * p.barcode_area_frac)) p.dpi (3 / 10) (1 / 10) with
    | .error _ => false
    | .ok barcode_img =>
      decide (text.getD data ≠ "" ∧ barcode_img.height + 2 < cs.2.toNat)

/-- A `django.http.HttpResponse` whose body is the PNG-encoded image. -/
structure HttpResponse where
  content_type : String
  image : Img

/-- `print_label_image(img, ...)`: convert the image to Brother raster
instructions and write them to the network backend.  The external
`convert` + `BrotherQLBackendNetwork.write` chain is abstracted by its
outcome `transmit`: `.ok ()` when the transmission succeeds, `.error e`
when it raises (connection refused / unreachable printer / protocol
error). -/
def print_label_image (transmit : Except String Unit) (_img : Img) :
    Except String Unit :=
  transmit

/-- `generate_and_print_label(data, text=None, profile=None)`: compose the
label; when `settings.ENABLE_BARCODE_PRINTING` is set, send it to the
printer — the source wraps `print_label_image` in no `try`/`except`, so a
transmission error raises out of this function — and otherwise (or after a
successful print) return the image as a PNG `HttpResponse`. -/
def generate_and_print_label (render : RenderFn) (glyph : GlyphFn)
    (transmit : Except String Unit) (enable_printing : Bool) (data : String)
    (text : Option String) (profile : Option LabelProfile) :
    Except String HttpResponse :=
  match create_label_image render glyph data text profile with
  | .error e => .error e
  | .ok img =>
    if enable_printing then
      match print_label_image transmit img with
      | .error e => .error e
      | .ok _ => .ok ⟨"image/png", img⟩
    else .ok ⟨"image/png", img⟩

/-- The product record attached to an inventory item, as the duck-typed
helpers probe it: each field is `none` when the attribute is missing,
`some none` when it is present but `None`, and `some (some s)` when it
holds a value (already rendered as the string `str(value)`).  The source's
`barcode` attribute is written `barcode_attr` here. -/
structure Product where
  upc : Option (Option String)
  gtin : Option (Option String)
  barcode_attr : Option (Option String)
  name : Option (Option String)

/-- An inventory-item record as the duck-typed helpers probe it.  For
`inventory_code` / `code` / `name`, a missing attribute and a falsy one
behave identically everywhere, so both are modelled by falsy (`none` =
missing, `some ""` = present but empty).  For `id` the source
distinguishes a missing attribute (`none`) from a present `None`
(`some none`).  `item.product` being missing and being falsy also behave
identically, so both are `none`.  `str_repr` is `str(item)`. -/
structure Item where
  inventory_code : Option String
  code : Option String
  id : Option (Option ℤ)
  product : Option Product
  name : Option String
  str_repr : String

/-- Python truthiness of an optional string value. -/
def truthyStr : Option String → Bool
  | none => false
  | some s => s ≠ ""

/-- `_get_upc_for_item(item)`: probe `item.product.upc` / `.gtin` /
`.barcode` in turn (a missing product makes every probe raise
`AttributeError`, which is swallowed), returning the first truthy value. -/
def _get_upc_for_item (item : Item) : Option String :=
  match item.product with
  | none => none
  | some p =>
    if truthyStr p.upc.join then p.upc.join
    else if truthyStr p.gtin.join then p.gtin.join
    else if truthyStr p.barcode_attr.join then p.barcode_attr.join
    else none

/-- `_get_unique_code_for_item(item)`: prefer a truthy `inventory_code`,
then a truthy `code`, then `f"INV-{item.id}"` when the `id` attribute is
present and not `None`, and finally the sentinel `"INV-UNKNOWN"` (with a
logged warning). -/
def _get_unique_code_for_item (item : Item) : String :=
  if truthyStr item.inventory_code then item.inventory_code.getD ""
  else if truthyStr item.code then item.code.getD ""
  else
    match item.id with
    | some (some n) => "INV-" ++ toString n
    | _ => "INV-UNKNOWN"

/-- `_get_item_display_name(item)`: `item.product.name` if it resolves and
is truthy, else a truthy `item.name`, else `str(item)`. -/
def _get_item_display_name (item : Item) : String :=
  match item.product with
  | some p =>
    if truthyStr p.name.join then (p.name.join).getD ""
    else if truthyStr item.name then item.name.getD ""
    else item.str_repr
  | none =>
    if truthyStr item.name then item.name.getD ""
    else item.str_repr

/-- `generate_and_print_barcode(item, mode, profile=None)`: reject a falsy
item; for the exact strings `"upc"` / `"unique"` run the early validation
block (whose `data` / `label_name` assignments are dead — they are
recomputed below); then dispatch on `mode.lower()`: `"upc"` encodes the
probed UPC (error when none is found), `"unique"` / `"inv"` /
`"inventory"` encode the unique code, and anything else raises the
unknown-mode `ValueError`; finally delegate to
`generate_and_print_label`. -/
def generate_and_print_barcode (render : RenderFn) (glyph : GlyphFn)
    (transmit : Except String Unit) (enable_printing : Bool)
    (item? : Option Item) (mode : String) (profile : Option LabelProfile) :
    Except String HttpResponse :=
  match item? with
  | none => .error "Cannot generate barcode: No item provided"
  | some item =>
    let upcMissing : Bool :=
      match item.product with
      | none => true
      | some p => p.upc.isNone
    if mode = "upc" ∧ upcMissing = true then
      .error "Cannot generate UPC barcode: Item has no product or UPC"
    else if mode = "unique" ∧ item.id = none then
      .error "Cannot generate unique barcode: Item has no ID"
    else
      let mode_lower := pyLower mode
      let item_name := _get_item_display_name item
      if mode_lower = "upc" then
        match _get_upc_for_item item with
        | none =>
          .error ("No UPC/GTIN/barcode available for item " ++ item.str_repr ++ ".")
        | some upc =>
          generate_and_print_label render glyph transmit enable_printing upc
            (some (item_name ++ " | " ++ upc)) profile
      else if mode_lower = "unique" ∨ mode_lower = "inv" ∨ mode_lower = "inventory" then
        let unique_code := _get_unique_code_for_item item
        generate_and_print_label render glyph transmit enable_printing unique_code
          (some unique_code) profile
      else
        .error ("Unknown barcode mode: '" ++ mode ++ "' (expected 'UPC' or 'Unique').")

/-! ### Definitions written from the spec's words
These follow the specification text, for comparison with the definitions
translated from the source above. -/

/-- Modelled from the spec: "`canvasSizePx()` returns vendor-exact pixel
size if `labelCode` is in the known-label table; otherwise computes
`round(mm / 25.4 * dpi)` per axis." -/
def spec_canvas_size_px (p : LabelProfile) : ℤ × ℤ :=
  match BROTHER_LABEL_PIXEL_SIZES.lookup p.code with
  | some s => s
  | none => (round (p.width_mm / 25.4 * p.dpi), round (p.height_mm / 25.4 * p.dpi))

/-- Modelled from the spec: "`sideMarginPx = round(mmToPx(sideMarginMm, dpi))`". -/
def spec_side_margin_px (p : LabelProfile) : ℤ :=
  round (p.side_margin_mm / 25.4 * p.dpi)

/-- Modelled from the spec (FitEngine): "render at `initialModuleWidthMm`;
while `image.width > maxWidthPx` AND `moduleWidthMm > minModuleWidthMm`,
multiply `moduleWidthMm` by 0.9 and re-render" — given as the final module
width of that search (with the same fuel bound as the implementation's
loop). -/
def spec_shrink (render : RenderFn) (data : String)
    (max_width_px target_height_px dpi : ℤ) (min_module : ℚ) : ℕ → ℚ → ℚ
  | 0, m => m
  | fuel + 1, m =>
    if ((renderBW render data m target_height_px dpi 2).width : ℤ) > max_width_px
        ∧ m > min_module
    then spec_shrink render data max_width_px target_height_px dpi min_module
      fuel (m * (9 / 10))
    else m

/-- Modelled from the spec: "if `image.height > targetHeightPx`, perform one
final proportional downscale (width scaled by `targetHeightPx /
image.height`)" to `(floor(width * target / height), target)` "using a
sharp, non-interpolating (nearest-neighbor) resampling filter". -/
def spec_downscale (target : ℤ) (img : Img) : Img :=
  if (img.height : ℤ) > target then
    resizeNearest img (⌊(img.width : ℚ) * (target : ℚ) / (img.height : ℚ)⌋).toNat
      target.toNat
  else img

/-- Modelled from the spec (LabelService, unique mode), tail of the chain:
the code field if present and non-empty, else "`INV-{id}`" when an id
exists, "if no id exists either, use a sentinel `INV-UNKNOWN`". -/
def spec_unique_code_rest (item : Item) : String :=
  match item.code with
  | some s =>
    if s ≠ "" then s
    else
      match item.id with
      | some (some n) => "INV-" ++ toString n
      | _ => "INV-UNKNOWN"
  | none =>
    match item.id with
    | some (some n) => "INV-" ++ toString n
    | _ => "INV-UNKNOWN"

/-- Modelled from the spec (LabelService, unique mode): use the explicit
inventory code field if present and non-empty, else fall back down the
chain `spec_unique_code_rest`. -/
def spec_unique_code (item : Item) : String :=
  match item.inventory_code with
  | some s => if s ≠ "" then s else spec_unique_code_rest item
  | none => spec_unique_code_rest item

/-! ### Concrete collaborators for witnesses and counterexamples -/

/-- A concrete stand-in for the external Code128 writer: width grows with
the module width, the pixel pattern alternates grayscale values. -/
def sampleRender : RenderFn := fun _ mw _ _ _ =>
  ⟨⌊100 * mw * 10⌋₊ / 3, 50, fun x y => (x + y) % 2 * 255⟩

/-- A concrete stand-in for the font rasterizer: inks the diagonal. -/
def sampleGlyph : GlyphFn := fun _ _ _ x y => x = y

/-- A profile whose code is not in the known-label table. -/
def profile29x90 : LabelProfile := ⟨"29x90", 90, 29, 300, 7 / 10, 2⟩

/-- An inventory item carrying only a truthy `inventory_code`. -/
def sampleItemInv : Item := ⟨some "X7", none, none, none, none, "item"⟩

/-- An inventory item with no attributes at all (in particular no `id`). -/
def sampleItemBare : Item := ⟨none, none, none, none, none, "item"⟩

/-! ### C1 -/

/-- Claim C1 (amended): `generate_and_print_label` returns the composed
label as a PNG response when printing is disabled or the transmission
succeeds, but when printing is enabled and the transmission raises, the
error propagates out of the orchestrator and no response is produced —
there is no `try`/`except` around `print_label_image`. -/
theorem generate_and_print_label_propagates_print_failure
    (render : RenderFn) (glyph : GlyphFn) (transmit : Except String Unit)
    (enable_printing : Bool) (data : String) (text : Option String)
    (profile : Option LabelProfile) :
    generate_and_print_label render glyph transmit enable_printing data text profile =
      (create_label_image render glyph data text profile).bind (fun img =>
        if enable_printing then transmit.map (fun _ => ⟨"image/png", img⟩)
        else .ok ⟨"image/png", img⟩) := by
  unfold generate_and_print_label print_label_image
  cases create_label_image render glyph data text profile <;>
    cases transmit <;> cases enable_printing <;> rfl

/-- Claim C1 counterexample: composing succeeds, the transmission fails
with "connection refused", and the orchestrator raises that failure instead
of returning the composed PNG. -/
theorem print_failure_not_swallowed_cex :
    generate_and_print_label sampleRender sampleGlyph (.error "connection refused")
      true "INV-739" none none = .error "connection refused" ∧
    (create_label_image sampleRender sampleGlyph "INV-739" none none).isOk = true := by
  constructor
  · with_unfolding_all rfl
  · with_unfolding_all rfl

/-! ### C2 -/

/-- Claim C2 (amended): a profile whose code is in the known-label table
gets the vendor-exact pair; outside the table each axis is converted by
`int` truncation — for the nonnegative dimensions profiles use, `⌊mm /
25.4 * dpi⌋` — not by `round`; `side_margin_px` truncates the same way. -/
theorem canvas_size_px_truncates (p : LabelProfile)
    (hw : 0 ≤ p.width_mm) (hh : 0 ≤ p.height_mm) (hm : 0 ≤ p.side_margin_mm)
    (hd : 0 ≤ p.dpi) :
    (p.code = "17x54" → p.canvas_size_px = (566, 165)) ∧
    (p.code ≠ "17x54" →
      p.canvas_size_px =
        (⌊p.width_mm / 25.4 * (p.dpi : ℚ)⌋, ⌊p.height_mm / 25.4 * (p.dpi : ℚ)⌋)) ∧
    p.side_margin_px = ⌊p.side_margin_mm / 25.4 * (p.dpi : ℚ)⌋ := by
  have hdq : (0 : ℚ) ≤ (p.dpi : ℚ) := by exact_mod_cast hd
  have key : ∀ q : ℚ, 0 ≤ q → pyInt (q / 25.4 * (p.dpi : ℚ)) = ⌊q / 25.4 * (p.dpi : ℚ)⌋ := by
    intro q hq
    unfold pyInt
    rw [if_pos]
    exact mul_nonneg (div_nonneg hq (by norm_num)) hdq
  refine ⟨?_, ?_, ?_⟩
  · intro hc
    unfold LabelProfile.canvas_size_px
    rw [hc]
    rfl
  · intro hc
    unfold LabelProfile.canvas_size_px
    have hb : (p.code == "17x54") = false := by
      rw [beq_eq_false_iff_ne]
      exact hc
    have : BROTHER_LABEL_PIXEL_SIZES.lookup p.code = none := by
      simp [BROTHER_LABEL_PIXEL_SIZES, List.lookup, hb]
    rw [this, key _ hw, key _ hh]
  · unfold LabelProfile.side_margin_px
    rw [key _ hm]

/-- Claim C2 witness: the truncation facts at the concrete 29x90 profile. -/
theorem canvas_size_px_truncates_w :
    (profile29x90.code = "17x54" → profile29x90.canvas_size_px = (566, 165)) ∧
    (profile29x90.code ≠ "17x54" →
      profile29x90.canvas_size_px =
        (⌊profile29x90.width_mm / 25.4 * (profile29x90.dpi : ℚ)⌋,
         ⌊profile29x90.height_mm / 25.4 * (profile29x90.dpi : ℚ)⌋)) ∧
    profile29x90.side_margin_px = ⌊profile29x90.side_margin_mm / 25.4 * (profile29x90.dpi : ℚ)⌋ :=
  canvas_size_px_truncates profile29x90 (by norm_num [profile29x90])
    (by norm_num [profile29x90]) (by norm_num [profile29x90]) (by norm_num [profile29x90])

/-- Claim C2 counterexample: for the 29x90 profile (not in the table) the
code computes canvas (1062, 342) and margin 23 by truncation, while the
claimed `round` formula gives (1063, 343) and 24. -/
theorem canvas_size_px_not_round_cex :
    profile29x90.canvas_size_px = (1062, 342) ∧
    spec_canvas_size_px profile29x90 = (1063, 343) ∧
    profile29x90.side_margin_px = 23 ∧
    spec_side_margin_px profile29x90 = 24 := by
  refine ⟨?_, ?_, ?_, ?_⟩ <;> with_unfolding_all decide

/-! ### C5 -/

/-- Claim C5 (amended): the unknown-mode `ValueError` is raised exactly for
modes whose `mode.lower()` is none of `"upc"`, `"unique"`, `"inv"`,
`"inventory"`; then the operation fails before rendering or printing
anything (the result is this error whatever the collaborators do).  Modes
such as `"inv"` and `"inventory"` are accepted, contrary to the claim. -/
theorem unknown_mode_amended (render : RenderFn) (glyph : GlyphFn)
    (transmit : Except String Unit) (enable_printing : Bool) (item : Item)
    (mode : String) (profile : Option LabelProfile)
    (h1 : pyLower mode ≠ "upc") (h2 : pyLower mode ≠ "unique")
    (h3 : pyLower mode ≠ "inv") (h4 : pyLower mode ≠ "inventory") :
    generate_and_print_barcode render glyph transmit enable_printing
      (some item) mode profile =
      .error ("Unknown barcode mode: '" ++ mode ++ "' (expected 'UPC' or 'Unique').") := by
  have hu : mode ≠ "upc" := by
    intro e
    apply h1
    rw [e]
    with_unfolding_all rfl
  have hq : mode ≠ "unique" := by
    intro e
    apply h2
    rw [e]
    with_unfolding_all rfl
  simp only [generate_and_print_barcode]
  rw [if_neg (fun h => hu h.1), if_neg (fun h => hq h.1), if_neg h1,
    if_neg (by rintro (h | h | h) <;> [exact h2 h; exact h3 h; exact h4 h])]

/-- Claim C5 witness: mode `"qr"` lowers to none of the accepted modes and
produces the unknown-mode error. -/
theorem unknown_mode_amended_w :
    generate_and_print_barcode sampleRender sampleGlyph (.ok ()) false
      (some sampleItemBare) "qr" none =
      .error ("Unknown barcode mode: '" ++ "qr" ++ "' (expected 'UPC' or 'Unique').") :=
  unknown_mode_amended sampleRender sampleGlyph (.ok ()) false sampleItemBare "qr" none
    (by with_unfolding_all decide) (by with_unfolding_all decide)
    (by with_unfolding_all decide) (by with_unfolding_all decide)

/-- Claim C5 counterexample: `"inv"` is neither `"upc"` nor `"unique"`, yet
the high-level print operation succeeds (a label is rendered) instead of
failing with the unknown-mode `ValueError`. -/
theorem unknown_mode_cex :
    ("inv" ≠ "upc" ∧ "inv" ≠ "unique") ∧
    (generate_and_print_barcode sampleRender sampleGlyph (.ok ()) false
      (some sampleItemInv) "inv" none).isOk = true := by
  constructor
  · with_unfolding_all decide
  · with_unfolding_all rfl

/-! ### C6 -/

/-- Claim C6 (amended): `_get_unique_code_for_item` implements exactly the
claimed fallback chain (inventory code, else code, else `INV-{id}`, else the
sentinel `INV-UNKNOWN`); but `generate_and_print_barcode` with the exact
mode string `"unique"` first requires the item to have an `id` attribute
and raises `ValueError` otherwise, so unique-mode printing can fail for an
item lacking an id; the sentinel path is reachable through mode variants
(e.g. `"Unique"`), which skip that early check. -/
theorem unique_code_amended :
    (∀ item, _get_unique_code_for_item item = spec_unique_code item) ∧
    (∀ (render : RenderFn) (glyph : GlyphFn) (transmit : Except String Unit)
      (ep : Bool) (profile : Option LabelProfile) (item : Item),
      item.id = none →
      generate_and_print_barcode render glyph transmit ep (some item) "unique" profile =
        .error "Cannot generate unique barcode: Item has no ID") ∧
    (∀ (render : RenderFn) (glyph : GlyphFn) (transmit : Except String Unit)
      (ep : Bool) (profile : Option LabelProfile) (item : Item),
      truthyStr item.inventory_code = false → truthyStr item.code = false →
      item.id = none →
      generate_and_print_barcode render glyph transmit ep (some item) "Unique" profile =
        generate_and_print_label render glyph transmit ep "INV-UNKNOWN"
          (some "INV-UNKNOWN") profile) := by
  refine ⟨?_, ?_, ?_⟩
  · intro item
    rcases item with ⟨ic, c, idf, pr, nm, sr⟩
    simp only [_get_unique_code_for_item, spec_unique_code, spec_unique_code_rest,
      truthyStr]
    cases ic with
    | none =>
      cases c with
      | none => rfl
      | some s =>
        by_cases hs : s = ""
        · subst hs
          simp
        · simp [hs]
    | some s =>
      by_cases hs : s = ""
      · subst hs
        simp
        cases c with
        | none => rfl
        | some s' =>
          by_cases hs' : s' = ""
          · subst hs'
            simp
          · simp [hs']
      · simp [hs]
  · intro render glyph transmit ep profile item hid
    simp only [generate_and_print_barcode]
    rw [if_neg (fun h => absurd h.1 (by decide)), if_pos ⟨by trivial, hid⟩]
  · intro render glyph transmit ep profile item h1 h2 hid
    simp only [generate_and_print_barcode]
    rw [if_neg (fun h => absurd h.1 (by decide)),
      if_neg (fun h => absurd h.1 (by decide)),
      if_neg (by with_unfolding_all decide : ¬pyLower "Unique" = "upc"),
      if_pos (Or.inl (by with_unfolding_all decide : pyLower "Unique" = "unique"))]
    unfold _get_unique_code_for_item
    rw [if_neg (by rw [h1]; exact Bool.false_ne_true), if_neg (by rw [h2]; exact Bool.false_ne_true)]
    rw [hid]

/-- Claim C6 counterexample: an item with no attributes at all (in
particular no `id`) makes unique-mode printing raise `ValueError` instead
of falling back to the sentinel. -/
theorem unique_mode_missing_id_cex :
    generate_and_print_barcode sampleRender sampleGlyph (.ok ()) false
      (some sampleItemBare) "unique" none =
      .error "Cannot generate unique barcode: Item has no ID" := by
  with_unfolding_all rfl

/-! ### C4 -/

/-- Claim C4: whenever `create_label_image` returns an image, its dimensions
are exactly the profile's `canvas_size_px` — the canvas is never resized to
accommodate the barcode — and with the default 17x54 profile the returned
image is exactly 566x165 pixels. -/
theorem create_label_image_canvas_size :
    (∀ (render : RenderFn) (glyph : GlyphFn) (data : String) (text : Option String)
      (profile : Option LabelProfile) (img : Img),
      create_label_image render glyph data text profile = .ok img →
      ((img.width : ℤ), (img.height : ℤ)) = (profile.getD DEFAULT_PROFILE).canvas_size_px) ∧
    (∃ img, create_label_image sampleRender sampleGlyph "INV-739" none none = .ok img ∧
      img.width = 566 ∧ img.height = 165) := by
  constructor
  · intro render glyph data text profile img h
    simp only [create_label_image] at h
    split at h
    · cases h
    · next hneg =>
      rw [not_or] at hneg
      have h1 : (0 : ℤ) ≤ (profile.getD DEFAULT_PROFILE).canvas_size_px.1 :=
        le_of_not_lt hneg.1
      have h2 : (0 : ℤ) ≤ (profile.getD DEFAULT_PROFILE).canvas_size_px.2 :=
        le_of_not_lt hneg.2
      split at h
      · cases h
      · split at h <;>
        · cases h
          simp only [drawText, Img.paste, Img.new1]
          rw [Int.toNat_of_nonneg h1, Int.toNat_of_nonneg h2]
  · exact ⟨_, by with_unfolding_all rfl, by with_unfolding_all rfl,
      by with_unfolding_all rfl⟩

/-! ### C7 -/

/-- Claim C7: the renderer fails with the empty-data `ValueError` exactly
when the data string is empty; the fit engine fails with the bounds
`ValueError` exactly when `max_width_px ≤ 0` or `target_height_px ≤ 0`; and
under non-empty data and positive bounds neither error occurs — the fit
engine returns an image. -/
theorem invalid_input_conditions :
    (∀ (render : RenderFn) (data : String) (mw : ℚ) (mh dpi : ℤ) (qz : ℚ),
      _render_code128 render data mw mh dpi qz =
        .error "Cannot generate barcode from empty data string." ↔ data = "") ∧
    (∀ (render : RenderFn) (data : String) (maxW tH dpi : ℤ) (im mm : ℚ),
      generate_barcode_to_fit render data maxW tH dpi im mm =
        .error "max_width_px and target_height_px must be > 0." ↔
        (maxW ≤ 0 ∨ tH ≤ 0)) ∧
    (∀ (render : RenderFn) (data : String) (maxW tH dpi : ℤ) (im mm : ℚ),
      data ≠ "" → 0 < maxW → 0 < tH →
      ∃ img, generate_barcode_to_fit render data maxW tH dpi im mm = .ok img) := by
  refine ⟨?_, ?_, ?_⟩
  · intro render data mw mh dpi qz
    unfold _render_code128
    by_cases h : data = "" <;> simp [h]
  · intro render data maxW tH dpi im mm
    unfold generate_barcode_to_fit
    by_cases hb : maxW ≤ 0 ∨ tH ≤ 0
    · simp [hb]
    · rw [if_neg hb]
      simp only [hb, iff_false]
      unfold _render_code128
      by_cases hd : data = ""
      · rw [if_pos hd]
        intro h
        rw [Except.error.injEq] at h
        exact absurd h (by decide)
      · rw [if_neg hd]
        intro h
        cases h
  · intro render data maxW tH dpi im mm hd h1 h2
    have hb : ¬(maxW ≤ 0 ∨ tH ≤ 0) := by
      rw [not_or]
      exact ⟨not_le_of_lt h1, not_le_of_lt h2⟩
    unfold generate_barcode_to_fit _render_code128
    rw [if_neg hb, if_neg hd]
    exact ⟨_, rfl⟩

/-! ### C9 -/

/-- `convert("1")` output is bilevel. -/
theorem convert1_bilevel (g : Img) : (convert1 g).bilevel := by
  intro x y
  simp only [convert1]
  split
  · right
    rfl
  · left
    rfl

/-- The render core always produces a bilevel image. -/
theorem renderBW_bilevel (render : RenderFn) (data : String) (mw : ℚ)
    (mh dpi : ℤ) (qz : ℚ) : (renderBW render data mw mh dpi qz).bilevel :=
  convert1_bilevel _

/-- Nearest-neighbour resampling invents no pixel values. -/
theorem resizeNearest_bilevel {img : Img} (h : img.bilevel) (nw nh : ℕ) :
    (resizeNearest img nw nh).bilevel := by
  intro x y
  exact h _ _

/-- The height downscale preserves bilevel images. -/
theorem downscale_bilevel {img : Img} (h : img.bilevel) (t : ℤ) :
    (downscale t img).bilevel := by
  unfold downscale
  split
  · exact resizeNearest_bilevel h _ _
  · exact h

/-- Pasting a bilevel image onto a bilevel base stays bilevel. -/
theorem paste_bilevel {a b : Img} (ha : a.bilevel) (hb : b.bilevel) (ox oy : ℤ) :
    (a.paste b ox oy).bilevel := by
  intro x y
  simp only [Img.paste]
  split
  · exact hb _ _
  · exact ha _ _

/-- Drawing black caption pixels preserves bilevel images. -/
theorem drawText_bilevel {img : Img} (h : img.bilevel) (g : GlyphFn)
    (t : String) (ax ay : ℕ) : (drawText g img t ax ay).bilevel := by
  intro x y
  simp only [drawText]
  split
  · left
    rfl
  · exact h _ _

/-- The shrink loop only ever returns re-rendered (bilevel) images or its
bilevel input. -/
theorem fit_loop_bilevel (render : RenderFn) (data : String)
    (maxW tH dpi : ℤ) (mm : ℚ) :
    ∀ (fuel : ℕ) (m : ℚ) (img : Img), img.bilevel →
      ((fit_loop render data maxW tH dpi mm fuel m img).1).bilevel := by
  intro fuel
  induction fuel with
  | zero => intro m img h; exact h
  | succ n ih =>
    intro m img h
    rw [fit_loop]
    split
    · exact ih _ _ (renderBW_bilevel render data _ tH dpi 2)
    · exact h

/-- Claim C9: every image the pipeline can return — the rendered barcode,
the fit engine's output (also after the nearest-neighbour downscale), and
the composed label — is strictly bilevel: each pixel is black (0) or white
(1), never an intermediate gray. -/
theorem pipeline_bilevel :
    (∀ (render : RenderFn) (data : String) (mw : ℚ) (mh dpi : ℤ) (qz : ℚ) (img : Img),
      _render_code128 render data mw mh dpi qz = .ok img → img.bilevel) ∧
    (∀ (render : RenderFn) (data : String) (maxW tH dpi : ℤ) (im mm : ℚ) (img : Img),
      generate_barcode_to_fit render data maxW tH dpi im mm = .ok img → img.bilevel) ∧
    (∀ (render : RenderFn) (glyph : GlyphFn) (data : String) (text : Option String)
      (profile : Option LabelProfile) (img : Img),
      create_label_image render glyph data text profile = .ok img → img.bilevel) := by
  have hfit : ∀ (render : RenderFn) (data : String) (maxW tH dpi : ℤ) (im mm : ℚ)
      (img : Img), generate_barcode_to_fit render data maxW tH dpi im mm = .ok img →
      img.bilevel := by
    intro render data maxW tH dpi im mm img h
    unfold generate_barcode_to_fit at h
    split at h
    · cases h
    · split at h
      · cases h
      · rename_i img0 heq
        cases h
        have himg0 : img0.bilevel := by
          unfold _render_code128 at heq
          split at heq
          · cases heq
          · cases heq
            exact renderBW_bilevel render data im tH dpi 2
        exact downscale_bilevel
          (fit_loop_bilevel render data maxW tH dpi mm (fitFuel im mm) im img0 himg0) tH
  refine ⟨?_, hfit, ?_⟩
  · intro render data mw mh dpi qz img h
    unfold _render_code128 at h
    split at h
    · cases h
    · cases h
      exact renderBW_bilevel render data mw mh dpi qz
  · intro render glyph data text profile img h
    simp only [create_label_image] at h
    split at h
    · cases h
    · split at h
      · cases h
      · next barcode_img heq =>
        have hb : barcode_img.bilevel := hfit _ _ _ _ _ _ _ _ heq
        have hp : ((Img.new1 (profile.getD DEFAULT_PROFILE).canvas_size_px.1.toNat
            (profile.getD DEFAULT_PROFILE).canvas_size_px.2.toNat).paste barcode_img
            (Int.fdiv (((profile.getD DEFAULT_PROFILE).canvas_size_px.1.toNat : ℤ) -
              (barcode_img.width : ℤ)) 2) 0).bilevel :=
          paste_bilevel (fun x y => Or.inr rfl) hb _ _
        split at h
        · cases h
          exact drawText_bilevel hp glyph _ _ _
        · cases h
          exact hp

/-! ### C10 -/

/-- The fit-engine invocation `create_label_image` makes, with the bounds it
computes from the profile. -/
def fit_call (render : RenderFn) (data : String) (p : LabelProfile) :
    Except String Img :=
  generate_barcode_to_fit render data (p.canvas_size_px.1 - 2 * p.side_margin_px)
    (pyInt ((p.canvas_size_px.2 : ℚ) * p.barcode_area_frac)) p.dpi (3 / 10) (1 / 10)

/-- Claim C10: the caption is drawn exactly when the effective caption
string (the explicit text, defaulting to `data` when `None`) is non-empty
and the anchor row `barcode_height + 2` is strictly below the canvas
height; whenever the fit engine returns a barcode for a valid canvas, the
label is returned without error whether or not the caption is drawn — in
particular in the no-caption scenarios (full-height barcode, explicit
empty-string caption), where the result does not depend on the font
rasterizer at all. -/
theorem caption_rules :
    (∀ (render : RenderFn) (g g' : GlyphFn) (data : String) (text : Option String)
      (profile : Option LabelProfile),
      caption_drawn render data text profile = false →
      create_label_image render g data text profile =
        create_label_image render g' data text profile) ∧
    (∀ (render : RenderFn) (g : GlyphFn) (data : String) (text : Option String)
      (profile : Option LabelProfile),
      caption_drawn render data text profile = true →
      ∃ img, create_label_image render g data text profile = .ok img) ∧
    (∀ (render : RenderFn) (data : String) (profile : Option LabelProfile),
      caption_drawn render data (some "") profile = false) ∧
    (∀ (render : RenderFn) (data : String) (profile : Option LabelProfile),
      caption_drawn render data none profile =
        caption_drawn render data (some data) profile) ∧
    (∀ (render : RenderFn) (data : String) (text : Option String)
      (profile : Option LabelProfile),
      caption_drawn render data text profile = true ↔
        (0 ≤ (profile.getD DEFAULT_PROFILE).canvas_size_px.1 ∧
         0 ≤ (profile.getD DEFAULT_PROFILE).canvas_size_px.2 ∧
         ∃ b, fit_call render data (profile.getD DEFAULT_PROFILE) = .ok b ∧
           text.getD data ≠ "" ∧
           b.height + 2 < (profile.getD DEFAULT_PROFILE).canvas_size_px.2.toNat)) ∧
    (∀ (render : RenderFn) (g : GlyphFn) (data : String) (text : Option String)
      (profile : Option LabelProfile) (b : Img),
      0 ≤ (profile.getD DEFAULT_PROFILE).canvas_size_px.1 →
      0 ≤ (profile.getD DEFAULT_PROFILE).canvas_size_px.2 →
      fit_call render data (profile.getD DEFAULT_PROFILE) = .ok b →
      ∃ img, create_label_image render g data text profile = .ok img) ∧
    ((create_label_image sampleRender sampleGlyph "INV-739" (some "") none).isOk = true ∧
      caption_drawn sampleRender "INV-739" (some "") none = false) := by
  refine ⟨?_, ?_, ?_, ?_, ?_, ?_, ?_⟩
  · intro render g g' data text profile hc
    simp only [caption_drawn] at hc
    simp only [create_label_image]
    split at hc
    · rename_i h1
      rw [if_pos h1, if_pos h1]
    · rename_i h1
      rw [if_neg h1, if_neg h1]
      split at hc
      · rfl
      · rename_i b heq
        rw [decide_eq_false_iff_not] at hc
        rw [if_neg hc, if_neg hc]
  · intro render g data text profile hc
    simp only [caption_drawn] at hc
    simp only [create_label_image]
    split at hc
    · cases hc
    · rename_i h1
      rw [if_neg h1]
      split at hc
      · cases hc
      · rename_i b heq
        rw [decide_eq_true_eq] at hc
        rw [if_pos hc]
        exact ⟨_, rfl⟩
  · intro render data profile
    simp only [caption_drawn]
    split
    · rfl
    · split
      · rfl
      · simp
  · intro render data profile
    rfl
  · intro render data text profile
    simp only [caption_drawn, fit_call]
    split
    · rename_i h1
      constructor
      · intro h
        cases h
      · rintro ⟨ha, hb, -⟩
        rcases h1 with h1 | h1
        · exact absurd h1 (not_lt_of_le ha)
        · exact absurd h1 (not_lt_of_le hb)
    · rename_i h1
      rw [not_or, not_lt, not_lt] at h1
      constructor
      · intro h
        split at h
        · cases h
        · rename_i b heq
          rw [decide_eq_true_eq] at h
          exact ⟨h1.1, h1.2, b, heq, h.1, h.2⟩
      · rintro ⟨-, -, b, heq, ht, hh⟩
        rw [heq, decide_eq_true_eq]
        exact ⟨ht, hh⟩
  · intro render g data text profile b h1 h2 heq
    simp only [fit_call] at heq
    simp only [create_label_image]
    rw [if_neg (by rw [not_or]; exact ⟨not_lt_of_le h1, not_lt_of_le h2⟩), heq]
    dsimp only
    by_cases hcond : text.getD data ≠ "" ∧
        b.height + 2 < (profile.getD DEFAULT_PROFILE).canvas_size_px.2.toNat
    · rw [if_pos hcond]
      exact ⟨_, rfl⟩
    · rw [if_neg hcond]
      exact ⟨_, rfl⟩
  · constructor
    · with_unfolding_all rfl
    · with_unfolding_all rfl

/-! ### C3 -/

/-- The threaded shrink loop of the implementation computes the image the
spec's module-width search describes: re-rendering at the final module
width of `spec_shrink`. -/
theorem fit_loop_fst_eq_spec_shrink (render : RenderFn) (data : String)
    (maxW tH dpi : ℤ) (mm : ℚ) :
    ∀ (fuel : ℕ) (m : ℚ),
      (fit_loop render data maxW tH dpi mm fuel m
        (renderBW render data m tH dpi 2)).1 =
      renderBW render data (spec_shrink render data maxW tH dpi mm fuel m) tH dpi 2 := by
  intro fuel
  induction fuel with
  | zero => intro m; rfl
  | succ n ih =>
    intro m
    rw [fit_loop, spec_shrink]
    split
    · dsimp only
      exact ih (m * (9 / 10))
    · rfl

/-- For a positive height budget the implementation's truncating downscale
is the spec's flooring downscale. -/
theorem downscale_eq_spec_downscale {tH : ℤ} (h : 0 < tH) (img : Img) :
    downscale tH img = spec_downscale tH img := by
  unfold downscale spec_downscale
  split
  · have ht : (0 : ℚ) ≤ (tH : ℚ) := by exact_mod_cast le_of_lt h
    have hq : (0 : ℚ) ≤ (img.width : ℚ) * ((tH : ℚ) / (img.height : ℚ)) :=
      mul_nonneg (Nat.cast_nonneg _) (div_nonneg ht (Nat.cast_nonneg _))
    unfold pyInt
    rw [if_pos hq, mul_div_assoc]
  · rfl

/-- Claim C3: for non-empty data and positive bounds,
`generate_barcode_to_fit` follows exactly the spec's algorithm: render at
the initial module width, shrink it by factor 0.9 while the image is too
wide and the module width exceeds the minimum (returning the
still-oversized image without raising once the minimum is passed), then
apply at most one proportional nearest-neighbour downscale to
`(floor(width * target / height), target)`. -/
theorem generate_barcode_to_fit_follows_spec (render : RenderFn) (data : String)
    (maxW tH dpi : ℤ) (im mm : ℚ)
    (hd : data ≠ "") (hw : 0 < maxW) (hh : 0 < tH) :
    generate_barcode_to_fit render data maxW tH dpi im mm =
      .ok (spec_downscale tH (renderBW render data
        (spec_shrink render data maxW tH dpi mm (fitFuel im mm) im) tH dpi 2)) := by
  unfold generate_barcode_to_fit _render_code128
  rw [if_neg (by rw [not_or]; exact ⟨not_le_of_lt hw, not_le_of_lt hh⟩), if_neg hd]
  dsimp only
  rw [fit_loop_fst_eq_spec_shrink render data maxW tH dpi mm (fitFuel im mm) im]
  rw [downscale_eq_spec_downscale hh]

/-- Claim C3 witness: the equation at concrete inputs (the default module
widths and the bounds the default 17x54 profile induces). -/
theorem generate_barcode_to_fit_follows_spec_w :
    generate_barcode_to_fit sampleRender "INV-739" 520 115 300 (3 / 10) (1 / 10) =
      .ok (spec_downscale 115 (renderBW sampleRender "INV-739"
        (spec_shrink sampleRender "INV-739" 520 115 300 (1 / 10)
          (fitFuel (3 / 10) (1 / 10)) (3 / 10)) 115 300 2)) :=
  generate_barcode_to_fit_follows_spec sampleRender "INV-739" 520 115 300 (3 / 10)
    (1 / 10) (by decide) (by decide) (by decide)

/-! ### C8 -/

/-- If the shrink loop performs `n + 1` iterations, the minimum module
width was still exceeded after `n` multiplications by 0.9. -/
theorem fit_loop_count_pos (render : RenderFn) (data : String)
    (maxW tH dpi : ℤ) (mm : ℚ) :
    ∀ (fuel : ℕ) (m : ℚ) (img : Img) (n : ℕ),
      (fit_loop render data maxW tH dpi mm fuel m img).2 = n + 1 →
      mm < m * (9 / 10) ^ n := by
  intro fuel
  induction fuel with
  | zero =>
    intro m img n h
    rw [fit_loop] at h
    simp at h
  | succ c ih =>
    intro m img n h
    rw [fit_loop] at h
    split at h
    · rename_i hcond
      dsimp only at h
      have h' : (fit_loop render data maxW tH dpi mm c (m * (9 / 10))
          (renderBW render data (m * (9 / 10)) tH dpi 2)).2 = n := by omega
      cases n with
      | zero => simpa using hcond.2
      | succ j =>
        have hj := ih (m * (9 / 10)) _ j h'
        calc mm < m * (9 / 10) * (9 / 10) ^ j := hj
        _ = m * (9 / 10) ^ (j + 1) := by ring
    · dsimp only at h
      simp at h

/-- Once some number of 0.9-multiplications below the fuel bound drops the
module width to (or below) the minimum, adding fuel changes nothing: the
loop has terminated through its own condition. -/
theorem fit_loop_stationary (render : RenderFn) (data : String)
    (maxW tH dpi : ℤ) (mm : ℚ) :
    ∀ (fuel : ℕ) (m : ℚ) (img : Img),
      (∃ k, k < fuel ∧ ¬(mm < m * (9 / 10) ^ k)) →
      ∀ fuel', fuel ≤ fuel' →
        fit_loop render data maxW tH dpi mm fuel' m img =
        fit_loop render data maxW tH dpi mm fuel m img := by
  intro fuel
  induction fuel with
  | zero =>
    rintro m img ⟨k, hk, -⟩
    exact absurd hk (Nat.not_lt_zero k)
  | succ c ih =>
    rintro m img ⟨k, hk, hstop⟩ fuel' hf
    obtain ⟨f', rfl⟩ : ∃ f', fuel' = f' + 1 := ⟨fuel' - 1, by omega⟩
    rw [fit_loop, fit_loop]
    split
    · rename_i hcond
      dsimp only
      have hk' : ∃ k2, k2 < c ∧ ¬(mm < m * (9 / 10) * (9 / 10) ^ k2) := by
        cases k with
        | zero => exact absurd (by simpa using hcond.2) hstop
        | succ j =>
          refine ⟨j, by omega, fun hlt => hstop ?_⟩
          calc mm < m * (9 / 10) * (9 / 10) ^ j := hlt
          _ = m * (9 / 10) ^ (j + 1) := by ring
      rw [ih (m * (9 / 10)) (renderBW render data (m * (9 / 10)) tH dpi 2) hk' f'
        (by omega)]
    · rfl

/-- After `9 * ⌈initial / min⌉₊` multiplications by 0.9 the module width is
at or below the minimum. -/
theorem fitFuel_exhausts (im mm : ℚ) (h0 : 0 < mm) (h1 : mm < im) :
    ¬(mm < im * (9 / 10) ^ (9 * ⌈im / mm⌉₊)) := by
  rw [not_lt]
  have him : (0 : ℚ) < im := h0.trans h1
  have hc : im / mm ≤ (⌈im / mm⌉₊ : ℚ) := Nat.le_ceil _
  have hpow : (1 : ℚ) + (9 * ⌈im / mm⌉₊ : ℕ) * (1 / 9) ≤ (1 + 1 / 9) ^ (9 * ⌈im / mm⌉₊) :=
    one_add_mul_le_pow (by norm_num) (9 * ⌈im / mm⌉₊)
  have h109 : (1 : ℚ) + (⌈im / mm⌉₊ : ℚ) ≤ ((10 : ℚ) / 9) ^ (9 * ⌈im / mm⌉₊) := by
    calc (1 : ℚ) + (⌈im / mm⌉₊ : ℚ) = 1 + (9 * ⌈im / mm⌉₊ : ℕ) * (1 / 9) := by
          push_cast
          ring
    _ ≤ (1 + 1 / 9) ^ (9 * ⌈im / mm⌉₊) := hpow
    _ = ((10 : ℚ) / 9) ^ (9 * ⌈im / mm⌉₊) := by norm_num
  have hge : im / mm ≤ ((10 : ℚ) / 9) ^ (9 * ⌈im / mm⌉₊) := by
    calc im / mm ≤ (⌈im / mm⌉₊ : ℚ) := hc
    _ ≤ 1 + (⌈im / mm⌉₊ : ℚ) := by linarith
    _ ≤ ((10 : ℚ) / 9) ^ (9 * ⌈im / mm⌉₊) := h109
  have hmul : ((10 : ℚ) / 9) ^ (9 * ⌈im / mm⌉₊) * ((9 : ℚ) / 10) ^ (9 * ⌈im / mm⌉₊) = 1 := by
    rw [← mul_pow]
    norm_num
  have step1 : im ≤ ((10 : ℚ) / 9) ^ (9 * ⌈im / mm⌉₊) * mm := (div_le_iff₀ h0).mp hge
  calc im * (9 / 10) ^ (9 * ⌈im / mm⌉₊)
      ≤ (((10 : ℚ) / 9) ^ (9 * ⌈im / mm⌉₊) * mm) * ((9 : ℚ) / 10) ^ (9 * ⌈im / mm⌉₊) :=
        mul_le_mul_of_nonneg_right step1 (by positivity)
  _ = mm * (((10 : ℚ) / 9) ^ (9 * ⌈im / mm⌉₊) * ((9 : ℚ) / 10) ^ (9 * ⌈im / mm⌉₊)) := by
        ring
  _ = mm := by rw [hmul, mul_one]

/-- Claim C8: with a positive minimum module width below the initial one,
the shrink loop of `generate_barcode_to_fit` terminates through its own
condition (extra fuel changes nothing), and the number of iterations it
performs is at most `⌈log(min/initial) / log(0.9)⌉`. -/
theorem fit_loop_terminates_with_log_bound (render : RenderFn) (data : String)
    (maxW tH dpi : ℤ) (im mm : ℚ) (h0 : 0 < mm) (h1 : mm < im) :
    (((fit_loop render data maxW tH dpi mm (fitFuel im mm) im
        (renderBW render data im tH dpi 2)).2 : ℤ) ≤
      ⌈Real.log ((mm : ℝ) / (im : ℝ)) / Real.log ((9 : ℝ) / 10)⌉) ∧
    (∀ fuel', fitFuel im mm ≤ fuel' →
      fit_loop render data maxW tH dpi mm fuel' im (renderBW render data im tH dpi 2) =
      fit_loop render data maxW tH dpi mm (fitFuel im mm) im
        (renderBW render data im tH dpi 2)) := by
  have him : (0 : ℚ) < im := h0.trans h1
  have himR : (0 : ℝ) < (im : ℝ) := by exact_mod_cast him
  have hmmR : (0 : ℝ) < (mm : ℝ) := by exact_mod_cast h0
  have hratio0 : (0 : ℝ) < (mm : ℝ) / (im : ℝ) := div_pos hmmR himR
  have hratio1 : (mm : ℝ) / (im : ℝ) < 1 := by
    rw [div_lt_one himR]
    exact_mod_cast h1
  have hL : Real.log ((mm : ℝ) / (im : ℝ)) < 0 := Real.log_neg hratio0 hratio1
  have hl : Real.log ((9 : ℝ) / 10) < 0 := Real.log_neg (by norm_num) (by norm_num)
  constructor
  · cases hcase : (fit_loop render data maxW tH dpi mm (fitFuel im mm) im
        (renderBW render data im tH dpi 2)).2 with
    | zero =>
      have hr : (0 : ℝ) < Real.log ((mm : ℝ) / (im : ℝ)) / Real.log ((9 : ℝ) / 10) :=
        div_pos_iff.mpr (Or.inr ⟨hL, hl⟩)
      have := Int.ceil_pos.mpr hr
      omega
    | succ k =>
      have hq := fit_loop_count_pos render data maxW tH dpi mm (fitFuel im mm) im _ k hcase
      have hqR : (mm : ℝ) < (im : ℝ) * ((9 : ℝ) / 10) ^ k := by
        have h' : ((mm : ℚ) : ℝ) < ((im * (9 / 10) ^ k : ℚ) : ℝ) := by exact_mod_cast hq
        push_cast at h'
        convert h' using 2
      have hdiv : (mm : ℝ) / (im : ℝ) < ((9 : ℝ) / 10) ^ k :=
        (div_lt_iff₀ himR).mpr (by linarith [hqR])
      have hlog : Real.log ((mm : ℝ) / (im : ℝ)) < k * Real.log ((9 : ℝ) / 10) := by
        have := Real.log_lt_log hratio0 hdiv
        rwa [Real.log_pow] at this
      have hklt : (k : ℝ) < Real.log ((mm : ℝ) / (im : ℝ)) / Real.log ((9 : ℝ) / 10) := by
        rw [lt_div_iff_of_neg hl]
        linarith [hlog]
      have hkc : (k : ℤ) < ⌈Real.log ((mm : ℝ) / (im : ℝ)) / Real.log ((9 : ℝ) / 10)⌉ :=
        Int.lt_ceil.mpr (by exact_mod_cast hklt)
      omega
  · intro fuel' hf
    exact fit_loop_stationary render data maxW tH dpi mm (fitFuel im mm) im
      (renderBW render data im tH dpi 2)
      ⟨9 * ⌈im / mm⌉₊, by simp [fitFuel], fitFuel_exhausts im mm h0 h1⟩ fuel' hf

/-- Claim C8 witness: the bound holds at the default module widths
(initial 0.3 mm, minimum 0.1 mm). -/
theorem fit_loop_terminates_with_log_bound_w :
    (((fit_loop sampleRender "INV-739" 520 115 300 (1 / 10) (fitFuel (3 / 10) (1 / 10))
        (3 / 10) (renderBW sampleRender "INV-739" (3 / 10) 115 300 2)).2 : ℤ) ≤
      ⌈Real.log (((1 / 10 : ℚ) : ℝ) / ((3 / 10 : ℚ) : ℝ)) / Real.log ((9 : ℝ) / 10)⌉) ∧
    (∀ fuel', fitFuel (3 / 10) (1 / 10) ≤ fuel' →
      fit_loop sampleRender "INV-739" 520 115 300 (1 / 10) fuel' (3 / 10)
        (renderBW sampleRender "INV-739" (3 / 10) 115 300 2) =
      fit_loop sampleRender "INV-739" 520 115 300 (1 / 10) (fitFuel (3 / 10) (1 / 10))
        (3 / 10) (renderBW sampleRender "INV-739" (3 / 10) 115 300 2)) :=
  fit_loop_terminates_with_log_bound sampleRender "INV-739" 520 115 300 (3 / 10) (1 / 10)
    (by norm_num) (by norm_num)

end BarcodeUtils
